import Mathlib

/-!
Verification of the notifico GitHub hook (`notifico/services/hooks/github.py`)
against its natural-language specification.

The Python code is shallowly embedded: JSON/Python values become the inductive
type `PyVal`, fallible Python operations become `Except PyErr`-valued
functions, and the outbound network call made by `GithubHook.shorten` becomes
an explicit oracle argument `net : String → NetOutcome`.  The base class
`HookService` (its `colors` table and `message` method) is not part of the
source slice, so those two pieces are modelled from the spec; everything else
is translated directly from `github.py`.
-/

set_option autoImplicit false
set_option maxRecDepth 4000
set_option maxHeartbeats 1000000

namespace NotificoGithub

/-- Python values as produced by `json.loads`, plus `None`.  Dicts are
association lists with (first-match) string keys; Python dicts cannot hold
duplicate keys, so on the values that actually arise keys are unique. -/
inductive PyVal where
  | none
  | bool (b : Bool)
  | int (n : Int)
  | str (s : String)
  | list (xs : List PyVal)
  | dict (entries : List (String × PyVal))

/-- The Python exceptions the embedded code can raise:
`KeyError` (`d[k]` on a dict missing `k`, `r.headers` missing `Location`),
`TypeError` (indexing / `len` / iteration / regex on a value of the wrong
type), `AttributeError` (`.get` on a non-dict, `.lower()` on a non-string),
`ValueError` (`json.loads` on a non-JSON string) and any
non-`Timeout` `requests` transport exception (`connectionError`). -/
inductive PyErr where
  | keyError (k : String)
  | typeError
  | attributeError
  | valueError
  | connectionError
deriving DecidableEq

/-- First-match lookup in the association-list representation of a dict. -/
def dlookup : List (String × PyVal) → String → Option PyVal
  | [], _ => Option.none
  | (k, v) :: es, key => if k = key then some v else dlookup es key

/-- `v[key]` for a string key: value on a dict that has the key, `KeyError`
on a dict that lacks it, `TypeError` on every non-dict. -/
def pyIndex : PyVal → String → Except PyErr PyVal
  | PyVal.dict es, key =>
    match dlookup es key with
    | some v => Except.ok v
    | Option.none => Except.error (PyErr.keyError key)
  | _, _ => Except.error PyErr.typeError

/-- Pure view of a dict entry: `some` value when `v` is a dict carrying the
key, `Option.none` otherwise.  Used only to state theorems. -/
def dget (v : PyVal) (key : String) : Option PyVal :=
  match v with
  | PyVal.dict es => dlookup es key
  | _ => Option.none

/-- `v.get(key, default)`: `AttributeError` unless `v` is a dict. -/
def pyGetD (v : PyVal) (key : String) (dflt : PyVal) : Except PyErr PyVal :=
  match v with
  | PyVal.dict es => Except.ok ((dlookup es key).getD dflt)
  | _ => Except.error PyErr.attributeError

/-- `v.get(key)` — default `None`. -/
def pyGetN (v : PyVal) (key : String) : Except PyErr PyVal :=
  pyGetD v key PyVal.none

/-- Contiguous-sublist test on character lists. -/
def listIsInfix (needle : List Char) : List Char → Bool
  | [] => needle.isEmpty
  | c :: rest => needle.isPrefixOf (c :: rest) || listIsInfix needle rest

/-- `pat` occurs as a contiguous substring of `s`. -/
def strContains (s pat : String) : Bool :=
  listIsInfix pat.data s.data

/-- `key in v` for a string key: key membership on dicts, element membership
on lists, substring test on strings, `TypeError` otherwise. -/
def pyContains (v : PyVal) (key : String) : Except PyErr Bool :=
  match v with
  | PyVal.dict es => Except.ok ((dlookup es key).isSome)
  | PyVal.list xs =>
    Except.ok (xs.any (fun x => match x with
      | PyVal.str s => s = key
      | _ => false))
  | PyVal.str s => Except.ok (strContains s key)
  | _ => Except.error PyErr.typeError

/-- Python iteration: list elements, characters of a string (as one-character
strings), keys of a dict; `TypeError` on non-iterables. -/
def pyIter : PyVal → Except PyErr (List PyVal)
  | PyVal.list xs => Except.ok xs
  | PyVal.str s => Except.ok (s.data.map (fun c => PyVal.str (String.mk [c])))
  | PyVal.dict es => Except.ok (es.map (fun e => PyVal.str e.1))
  | _ => Except.error PyErr.typeError

/-- `len(v)`: `TypeError` on unsized values. -/
def pyLen : PyVal → Except PyErr Nat
  | PyVal.list xs => Except.ok xs.length
  | PyVal.str s => Except.ok s.length
  | PyVal.dict es => Except.ok es.length
  | _ => Except.error PyErr.typeError

/-- Python truthiness. -/
def pyTruthy : PyVal → Bool
  | PyVal.none => false
  | PyVal.bool b => b
  | PyVal.int n => n != 0
  | PyVal.str s => s != ""
  | PyVal.list xs => !xs.isEmpty
  | PyVal.dict es => !es.isEmpty

/-- `v is None`. -/
def isPyNone : PyVal → Bool
  | PyVal.none => true
  | _ => false

/-- A value in a position where Python requires `str` (regex argument,
`' '.join` element): `TypeError` otherwise. -/
def asStr : PyVal → Except PyErr String
  | PyVal.str s => Except.ok s
  | _ => Except.error PyErr.typeError

/-- `v[:7]`: slicing works on strings and lists, `TypeError` otherwise. -/
def pySlice7 : PyVal → Except PyErr PyVal
  | PyVal.str s => Except.ok (PyVal.str (String.mk (s.data.take 7)))
  | PyVal.list xs => Except.ok (PyVal.list (xs.take 7))
  | _ => Except.error PyErr.typeError

/-- Python `str.lower()` on the characters of `s`.  (Python lowercasing is
Unicode-aware; `Char.toLower` agrees with it on the ASCII names the hook
compares.) -/
def strLower (s : String) : String :=
  String.mk (s.data.map Char.toLower)

/-- Python `str.strip()`: whitespace removed from both ends. -/
def pyStrip (s : String) : String :=
  String.mk (((s.data.dropWhile Char.isWhitespace).reverse.dropWhile
    Char.isWhitespace).reverse)

/-- Python `str.split(',')`: the comma-separated chunks, `[""]` on the empty
string. -/
def splitOnComma : List Char → List (List Char)
  | [] => [[]]
  | c :: rest =>
    match splitOnComma rest with
    | [] => [[]]
    | g :: gs => if c = ',' then [] :: g :: gs else (c :: g) :: gs

/-- `v.lower()`: `AttributeError` on non-strings. -/
def pyLower : PyVal → Except PyErr String
  | PyVal.str s => Except.ok (strLower s)
  | _ => Except.error PyErr.attributeError

/-- `github.py:130` — the comparison list built by the branch filter:
`[b.strip().lower() for b in branches.split(',')]`. -/
def filterList (bs : String) : List String :=
  (splitOnComma bs.data).map (fun g => strLower (pyStrip (String.mk g)))

mutual
/-- Python `repr`, reached by `str.format` only through containers.  String
escaping inside container reprs is simplified (no backslash escapes); on the
payloads the theorems below evaluate, this branch is never taken. -/
def pyRepr : PyVal → String
  | PyVal.none => "None"
  | PyVal.bool true => "True"
  | PyVal.bool false => "False"
  | PyVal.int n => toString n
  | PyVal.str s => "\x27" ++ s ++ "\x27"
  | PyVal.list xs => "[" ++ String.intercalate ", " (pyReprList xs) ++ "]"
  | PyVal.dict es => "\x7b" ++ String.intercalate ", " (pyReprEntries es) ++ "\x7d"

def pyReprList : List PyVal → List String
  | [] => []
  | v :: vs => pyRepr v :: pyReprList vs

def pyReprEntries : List (String × PyVal) → List String
  | [] => []
  | (k, v) :: es => ("\x27" ++ k ++ "\x27: " ++ pyRepr v) :: pyReprEntries es
end

/-- `str(v)`, as applied by `'...'.format(...)` to interpolated values. -/
def pyStr : PyVal → String
  | PyVal.none => "None"
  | PyVal.bool true => "True"
  | PyVal.bool false => "False"
  | PyVal.int n => toString n
  | PyVal.str s => s
  | PyVal.list xs => pyRepr (PyVal.list xs)
  | PyVal.dict es => pyRepr (PyVal.dict es)

/-- `sep.join(parts)` for parts that are already strings. -/
def pyJoin (sep : String) : List String → String
  | [] => ""
  | [x] => x
  | x :: y :: xs => x ++ sep ++ pyJoin sep (y :: xs)

/-- Explicit bind on `Except PyErr`, kept as a `match` so that proofs can use
`split`.  It agrees with the monadic bind. -/
def ebind {α β : Type} : Except PyErr α → (α → Except PyErr β) → Except PyErr β
  | Except.error e, _ => Except.error e
  | Except.ok a, f => f a

/-- The remainder of a ref path against `(.*)$`: `.` does not cross a
newline, and `$` also matches just before a trailing newline, so the match
succeeds exactly when the remainder has no newline other than a final one,
which is excluded from the captured name. -/
def refRest (type : String) (rest : List Char) : Option (String × String) :=
  match rest.getLast? with
  | some c =>
    if c = '\n' then
      if (rest.dropLast).any (fun d => d = '\n') then Option.none
      else some (type, String.mk rest.dropLast)
    else
      if rest.any (fun d => d = '\n') then Option.none
      else some (type, String.mk rest)
  | Option.none => some (type, "")

/-- `github.py:32` — the compiled pattern `refs/(heads|tags)/(.*)$` applied
with `re.match` (anchored at the start, not at the end).  Returns the group
pair `(type, name)` on a match. -/
def refMatch (s : String) : Option (String × String) :=
  if ("refs/heads/".data).isPrefixOf s.data then refRest "heads" (s.data.drop 11)
  else if ("refs/tags/".data).isPrefixOf s.data then refRest "tags" (s.data.drop 10)
  else Option.none

/-- `github.py:33-38` — the `for ref in (...)` loop body: run `ref_r.match`
on each candidate in turn (`TypeError` on a non-string, as `re.match`
raises), stopping at the first match. -/
def refLoop : List PyVal → Except PyErr (Option (String × String))
  | [] => Except.ok Option.none
  | v :: rest =>
    ebind (asStr v) (fun s =>
      match refMatch s with
      | some tn => Except.ok (some tn)
      | Option.none => refLoop rest)

/-- The four file-movement accumulators of `result['files']`. -/
structure Files where
  all : List PyVal
  added : List PyVal
  removed : List PyVal
  modified : List PyVal

/-- `github.py:47-50` — for each commit and each of `added`, `removed`,
`modified` (in that order), `commit[type_]` is looked up (`KeyError` when
missing, `TypeError` on a non-dict commit) and its elements are appended to
both the per-category list and `all`. -/
def foldCommits : List PyVal → Files → Except PyErr Files
  | [], f => Except.ok f
  | c :: cs, f =>
    ebind (pyIndex c "added") (fun av =>
    ebind (pyIter av) (fun al =>
    ebind (pyIndex c "removed") (fun rv =>
    ebind (pyIter rv) (fun rl =>
    ebind (pyIndex c "modified") (fun mv =>
    ebind (pyIter mv) (fun ml =>
      foldCommits cs
        { all := f.all ++ al ++ rl ++ ml
          added := f.added ++ al
          removed := f.removed ++ rl
          modified := f.modified ++ ml }))))))

/-- `github.py:36-37` — the `{'heads': 'branch', 'tags': 'tag'}[type_]`
dispatch: the pair of values stored under `branch` and `tag` for a given
ref-loop outcome. -/
def refToBranchTag : Option (String × String) → PyVal × PyVal
  | some ("heads", name) => (PyVal.str name, PyVal.none)
  | some ("tags", name) => (PyVal.none, PyVal.str name)
  | _ => (PyVal.none, PyVal.none)

/-- `github.py:13-52`, `simplify_payload`.  Mirrors the Python statement
order: the two `payload.get` calls (raising `AttributeError` on a non-dict
payload), the ref loop, the pusher block, the commits loop, and finally the
result dict, whose `original` entry is the untouched payload. -/
def simplify_payload (payload : PyVal) : Except PyErr PyVal :=
  ebind (pyGetD payload "ref" (PyVal.str "")) (fun ref1 =>
  ebind (pyGetD payload "base_ref" (PyVal.str "")) (fun ref2 =>
  ebind (refLoop [ref1, ref2]) (fun refres =>
  ebind (pyContains payload "pusher") (fun hasPusher =>
  ebind
    (if hasPusher then
      ebind (pyIndex payload "pusher") (fun pv => pyGetN pv "name")
     else Except.ok PyVal.none) (fun pusherv =>
  ebind (pyGetD payload "commits" (PyVal.list [])) (fun commitsv =>
  ebind (pyIter commitsv) (fun cs =>
  ebind (foldCommits cs ⟨[], [], [], []⟩) (fun files =>
    Except.ok (PyVal.dict [
      ("branch", (refToBranchTag refres).1),
      ("tag", (refToBranchTag refres).2),
      ("pusher", pusherv),
      ("files", PyVal.dict [
        ("all", PyVal.list files.all),
        ("added", PyVal.list files.added),
        ("removed", PyVal.list files.removed),
        ("modified", PyVal.list files.modified)]),
      ("original", payload)])))))))))

/-- Modelled from the spec: the five entries of `HookService.colors` that
`github.py` uses — mIRC color escape codes (`\x03` plus a two-digit palette
index) and the bare reset code, interleaved around structural tokens. -/
def RESET : String := "\x03"

/-- Modelled from the spec: mIRC code for the project name. -/
def BLUE : String := "\x0302"

/-- Modelled from the spec: mIRC code for shas, branches, tags and counts. -/
def GREEN : String := "\x0303"

/-- Modelled from the spec: mIRC code for people. -/
def ORANGE : String := "\x0307"

/-- Modelled from the spec: mIRC code for links. -/
def PINK : String := "\x0313"

/-- Modelled from the spec: removal of mIRC color codes — a `\x03` byte
together with up to two following digits is deleted.  The first argument is
the number of digits that may still be consumed after a `\x03`. -/
def stripColorsAux : Nat → List Char → List Char
  | _, [] => []
  | 0, c :: rest =>
    if c = '\x03' then stripColorsAux 2 rest else c :: stripColorsAux 0 rest
  | n + 1, c :: rest =>
    if c = '\x03' then stripColorsAux 2 rest
    else if c.isDigit then stripColorsAux n rest
    else c :: stripColorsAux 0 rest

/-- Modelled from the spec: strip all mIRC color/reset codes from a line. -/
def stripColors (s : String) : String :=
  String.mk (stripColorsAux 0 s.data)

/-- Modelled from the spec: `HookService.message` — the formatted line leaves
the formatter stripped of color codes exactly when `strip` is set; stripping
is a post-processing step, never a separate formatting path. -/
def message (line : String) (strip : Bool) : String :=
  if strip then stripColors line else line

/-- One outcome of the `requests.post` call to the shortening service:
a timeout, any other transport failure, or an HTTP response with a status
code and an optional `Location` header. -/
inductive NetOutcome where
  | timeout
  | transportError
  | response (status : Nat) (location : Option String)

/-- `github.py:318` — `re.search(r'^https?://git.io', url)`: the anchored
pattern matches urls beginning `http://` or `https://` followed by `git`,
any single non-newline character, then `io` (the unescaped `.` matches any
character). -/
def isGitIoUrl (url : String) : Bool :=
  match url.data with
  | 'h' :: 't' :: 't' :: 'p' :: rest =>
    let rest2 := match rest with
      | 's' :: r => r
      | r => r
    match rest2 with
    | ':' :: '/' :: '/' :: 'g' :: 'i' :: 't' :: c :: 'i' :: 'o' :: _ => c != '\n'
    | _ => false
  | _ => false

/-- `github.py:314-337`, `GithubHook.shorten`.  The network is an explicit
oracle.  Only `requests.exceptions.Timeout` is caught; every other transport
error propagates, and a 201 without a `Location` header raises `KeyError`. -/
def shorten (net : String → NetOutcome) (url : String) : Except PyErr String :=
  if isGitIoUrl url then Except.ok url
  else
    match net url with
    | NetOutcome.timeout => Except.ok url
    | NetOutcome.transportError => Except.error PyErr.connectionError
    | NetOutcome.response status location =>
      if status != 201 then Except.ok url
      else
        match location with
        | some l => Except.ok l
        | Option.none => Except.error (PyErr.keyError "Location")

/-- The per-project hook configuration.  `hook.config or {}` followed by
`config.get(key, default)` reads is modelled as a record carrying exactly the
source defaults (`github.py:113-119, 145, 199-200, 260-261`); a wholly
missing config is the record of defaults. -/
structure HookConfig where
  use_colors : Bool := true
  show_branch : Bool := true
  show_tags : Bool := true
  prefer_username : Bool := true
  full_project_name : Bool := false
  branches : Option String := Option.none

/-- The project-name block repeated verbatim at `github.py:150-157`,
`206-213` and `272-279`: `original['repository']['name']`, or
`owner/name` when `full_project_name` is set, converted by `str.format`. -/
def projectName (original : PyVal) (full : Bool) : Except PyErr String :=
  ebind (pyIndex original "repository") (fun repo =>
  ebind (pyIndex repo "name") (fun namev =>
  if full then
    ebind (pyIndex repo "owner") (fun owner =>
    ebind (pyIndex owner "name") (fun ownerName =>
      Except.ok (pyStr ownerName ++ "/" ++ pyStr namev)))
  else Except.ok (pyStr namev)))

/-- `github.py:139-191`, `GithubHook._create_tag_summary`, in source
evaluation order: project name, pusher (or the bare `Tagged`), the head
commit sha sliced to 7, the tag, the shortened head-commit url. -/
def create_tag_summary (net : String → NetOutcome) (j : PyVal)
    (config : HookConfig) : Except PyErr String :=
  ebind (pyIndex j "original") (fun original =>
  ebind (projectName original config.full_project_name) (fun pname =>
  let seg1 := RESET ++ "[" ++ BLUE ++ pname ++ RESET ++ "]"
  ebind (pyIndex j "pusher") (fun pusher =>
  let seg2 :=
    if pyTruthy pusher then ORANGE ++ pyStr pusher ++ RESET ++ " tagged"
    else "Tagged"
  ebind (pyIndex original "head_commit") (fun hc =>
  ebind (pyIndex hc "id") (fun idv =>
  ebind (pySlice7 idv) (fun sha =>
  let seg3 := GREEN ++ pyStr sha ++ RESET ++ " as"
  ebind (pyIndex j "tag") (fun tagv =>
  let seg4 := GREEN ++ pyStr tagv ++ RESET
  ebind (pyIndex hc "url") (fun urlv =>
  ebind (asStr urlv) (fun url =>
  ebind (shorten net url) (fun short =>
  let seg5 := PINK ++ short ++ RESET
  Except.ok (pyJoin " " [seg1, seg2, seg3, seg4, seg5])))))))))))

/-- `github.py:193-253`, `GithubHook._create_push_summary`, in source
evaluation order: project name, optional pusher segment, commit count with
its singular/plural noun, optional branch segment, the `[+A -R ±M]` file
delta (slash-separated in the output), the shortened compare url. -/
def create_push_summary (net : String → NetOutcome) (j : PyVal)
    (config : HookConfig) : Except PyErr String :=
  ebind (pyIndex j "original") (fun original =>
  ebind (projectName original config.full_project_name) (fun pname =>
  let seg1 := RESET ++ "[" ++ BLUE ++ pname ++ RESET ++ "]"
  ebind (pyIndex j "pusher") (fun pusher =>
  let pusherSegs :=
    if pyTruthy pusher then [ORANGE ++ pyStr pusher ++ RESET ++ " pushed"]
    else []
  ebind (pyIndex original "commits") (fun commitsv =>
  ebind (pyLen commitsv) (fun n =>
  let seg3 := GREEN ++ toString n ++ RESET ++ " " ++
    (if n = 1 then "commit" else "commits")
  ebind (pyIndex j "branch") (fun branch =>
  let branchSegs :=
    if config.show_branch && pyTruthy branch then
      ["to " ++ GREEN ++ pyStr branch ++ RESET]
    else []
  ebind (pyIndex j "files") (fun files =>
  ebind (pyIndex files "added") (fun fa =>
  ebind (pyLen fa) (fun na =>
  ebind (pyIndex files "removed") (fun fr =>
  ebind (pyLen fr) (fun nr =>
  ebind (pyIndex files "modified") (fun fm =>
  ebind (pyLen fm) (fun nm =>
  let seg5 := "[+" ++ toString na ++ "/-" ++ toString nr ++ "/±" ++
    toString nm ++ "]"
  ebind (pyIndex original "compare") (fun cmpv =>
  ebind (asStr cmpv) (fun cmp =>
  ebind (shorten net cmp) (fun short =>
  let seg6 := PINK ++ short ++ RESET
  Except.ok (pyJoin " "
    (seg1 :: pusherSegs ++ seg3 :: branchSegs ++ [seg5, seg6]))))))))))))))))))

/-- `github.py:265-312` — the body of the `for commit in original['commits']`
loop of `_create_commit_summary`: `committer`/`author` fetched with dict
defaults, the project-name block, the attribution chain (username — checked
twice in the source — then author name, then committer name, omitted when
falsy), the sha sliced to 7, the literal `-`, the raw message (which
`' '.join` requires to be a string).  Commit lines contain no link, so no
network access happens here. -/
def commitLine (original : PyVal)
    (config : HookConfig) (commit : PyVal) : Except PyErr String :=
  ebind (pyGetD commit "committer" (PyVal.dict [])) (fun committer =>
  ebind (pyGetD commit "author" (PyVal.dict [])) (fun author =>
  ebind (projectName original config.full_project_name) (fun pname =>
  let seg1 := RESET ++ "[" ++ BLUE ++ pname ++ RESET ++ "]"
  ebind
    (if config.prefer_username then
      ebind (pyGetN author "username") (fun u =>
        if isPyNone u then pyGetN author "username" else Except.ok u)
     else Except.ok PyVal.none) (fun a1 =>
  ebind
    (if isPyNone a1 then
      ebind (pyGetN author "name") (fun nm =>
        if isPyNone nm then pyGetN committer "name" else Except.ok nm)
     else Except.ok a1) (fun a2 =>
  let attrSegs :=
    if pyTruthy a2 then [ORANGE ++ pyStr a2 ++ RESET] else []
  ebind (pyIndex commit "id") (fun idv =>
  ebind (pySlice7 idv) (fun sha =>
  let seg3 := GREEN ++ pyStr sha ++ RESET
  ebind (pyIndex commit "message") (fun msgv =>
  ebind (asStr msgv) (fun msg =>
    Except.ok (pyJoin " " (seg1 :: attrSegs ++ [seg3, "-", msg])))))))))))

/-- Sequential traversal of the commit generator: the first raised exception
aborts the run, otherwise one line per commit in order. -/
def mapLines (f : PyVal → Except PyErr String) :
    List PyVal → Except PyErr (List String)
  | [] => Except.ok []
  | c :: cs =>
    ebind (f c) (fun l =>
    ebind (mapLines f cs) (fun ls =>
      Except.ok (l :: ls)))

/-- `github.py:255-312`, `GithubHook._create_commit_summary`: iterate
`original['commits']` yielding `commitLine` for each commit. -/
def create_commit_summary (j : PyVal)
    (config : HookConfig) : Except PyErr (List String) :=
  ebind (pyIndex j "original") (fun original =>
  ebind (pyIndex original "commits") (fun commitsv =>
  ebind (pyIter commitsv) (fun cs =>
    mapLines (commitLine original config) cs)))

/-- `github.py:128-133` — the branch-filter decision: with a truthy
`branches` config string, split on commas, strip and lower each entry, and
suppress the push when `j['branch']` is truthy and its lowercasing is not in
the list. -/
def branchSuppressed (j : PyVal) (config : HookConfig) :
    Except PyErr Bool :=
  match config.branches with
  | Option.none => Except.ok false
  | some bs =>
    if bs != "" then
      ebind (pyIndex j "branch") (fun branch =>
      if pyTruthy branch then
        ebind (pyLower branch) (fun lower =>
          Except.ok (decide (lower ∉ filterList bs)))
      else Except.ok false)
    else Except.ok false

/-- `github.py:103-137`, `GithubHook.handle_request`.  The `payload` form
field is an optional string; `parse` is the `json.loads` oracle (`Option.none`
meaning the string is not JSON, in which case `json.loads` raises
`ValueError`).  A falsy field returns the empty sequence; with empty commits
the tag branch checks `show_tags` and the (always-true) `'tag' in j`
membership; otherwise the branch filter may suppress the push, and the push
summary is followed by one line per commit, each passed through
`message`/`strip`. -/
def handle_request (net : String → NetOutcome) (parse : String → Option PyVal)
    (payloadField : Option String) (config : HookConfig) :
    Except PyErr (List String) :=
  match payloadField with
  | Option.none => Except.ok []
  | some p =>
    if p = "" then Except.ok []
    else
      match parse p with
      | Option.none => Except.error PyErr.valueError
      | some payload =>
        ebind (simplify_payload payload) (fun j =>
        ebind (pyIndex j "original") (fun original =>
        ebind (pyIndex original "commits") (fun commitsv =>
        if !pyTruthy commitsv then
          ebind (pyContains j "tag") (fun hasTag =>
          if !config.show_tags || !hasTag then Except.ok []
          else
            ebind (create_tag_summary net j config) (fun line =>
              Except.ok [message line (!config.use_colors)]))
        else
          ebind (branchSuppressed j config) (fun suppressed =>
          if suppressed then Except.ok []
          else
            ebind (create_push_summary net j config) (fun pushLine =>
            ebind (create_commit_summary j config) (fun commitLines =>
              Except.ok (message pushLine (!config.use_colors) ::
                commitLines.map (fun l =>
                  message l (!config.use_colors)))))))))

/-! ### Auxiliary predicates used to state the claims -/

/-- The run did not raise. -/
def exceptIsOk {α : Type} : Except PyErr α → Bool
  | Except.ok _ => true
  | Except.error _ => false

/-- Values Python can iterate over (`for x in v`, `list.extend(v)`). -/
def isIterable : PyVal → Bool
  | PyVal.list _ => true
  | PyVal.str _ => true
  | PyVal.dict _ => true
  | _ => false

/-- An optional dict entry that, when present, is a string. -/
def optStrOrAbsent : Option PyVal → Bool
  | Option.none => true
  | some (PyVal.str _) => true
  | _ => false

/-- An optional dict entry that, when present, is a dict. -/
def optDictOrAbsent : Option PyVal → Bool
  | Option.none => true
  | some (PyVal.dict _) => true
  | _ => false

/-- A commit object on which the file-aggregation loop of
`simplify_payload` cannot raise: the three category keys are present and
iterable. -/
def commitWF (c : PyVal) : Bool :=
  match dget c "added", dget c "removed", dget c "modified" with
  | some a, some r, some m => isIterable a && isIterable r && isIterable m
  | _, _, _ => false

/-- The payload shapes on which `simplify_payload` is total: a dict whose
`ref`/`base_ref`, when present, are strings, whose `pusher`, when present,
is a dict, and whose `commits`, when present, is a list of well-formed
commit objects. -/
def simplifyWF (p : PyVal) : Bool :=
  match p with
  | PyVal.dict _ =>
    optStrOrAbsent (dget p "ref") && optStrOrAbsent (dget p "base_ref") &&
    optDictOrAbsent (dget p "pusher") &&
    (match dget p "commits" with
     | Option.none => true
     | some (PyVal.list cs) => cs.all commitWF
     | some _ => false)
  | _ => false

/-- `suffix` is a literal suffix of `s`. -/
def strEndsWith (s suffix : String) : Bool :=
  suffix.data.isSuffixOf s.data

/-! ### Concrete instances used by the claim theorems -/

/-- A network oracle on which every request times out. -/
def netTimeout : String → NetOutcome := fun _ => NetOutcome.timeout

/-- A network oracle on which every request gets `201 Created` with the
given `Location` header. -/
def netCreated (loc : String) : String → NetOutcome :=
  fun _ => NetOutcome.response 201 (some loc)

/-- A `json.loads` oracle for a request body that is not JSON. -/
def parseFail : String → Option PyVal := fun _ => Option.none

/-- A `json.loads` oracle for a body that parses to the given value. -/
def parseTo (p : PyVal) : String → Option PyVal := fun _ => some p

/-- A push payload with an empty commit list and no tag ref: `ref` names a
branch, so `simplify_payload` leaves `tag = None`. -/
def c1payload : PyVal := PyVal.dict [
  ("ref", PyVal.str "refs/heads/main"),
  ("commits", PyVal.list []),
  ("repository", PyVal.dict [("name", PyVal.str "proj")]),
  ("head_commit", PyVal.dict [
    ("id", PyVal.str "deadbeef00"),
    ("url", PyVal.str "http://git.io/xyz")])]

/-- The line the hook emits on `c1payload` under the default config: a tag
summary for a push that has no tag, rendering `None` as the tag name. -/
def c1line : String :=
  "\x03[\x0302proj\x03] Tagged \x0303deadbee\x03 as \x0303None\x03 \x0313http://git.io/xyz\x03"

/-- A payload whose single commit lacks the `added` key. -/
def c2badPayload : PyVal :=
  PyVal.dict [("commits", PyVal.list [PyVal.dict []])]

/-- `simplify_payload` of the empty payload dict. -/
def c2emptyResult : PyVal := PyVal.dict [
  ("branch", PyVal.none),
  ("tag", PyVal.none),
  ("pusher", PyVal.none),
  ("files", PyVal.dict [
    ("all", PyVal.list []),
    ("added", PyVal.list []),
    ("removed", PyVal.list []),
    ("modified", PyVal.list [])]),
  ("original", PyVal.dict [])]

/-- The single commit of the scenario payload. -/
def ghCommit : PyVal := PyVal.dict [
  ("id", PyVal.str "abcdef0123"),
  ("message", PyVal.str "fix bug"),
  ("added", PyVal.list []),
  ("removed", PyVal.list []),
  ("modified", PyVal.list [PyVal.str "a.py"])]

/-- The scenario payload of the spec (and of claims C5, C6, C7): one commit
on `refs/heads/main` pushed by `alice`. -/
def ghPayload : PyVal := PyVal.dict [
  ("ref", PyVal.str "refs/heads/main"),
  ("pusher", PyVal.dict [("name", PyVal.str "alice")]),
  ("commits", PyVal.list [ghCommit]),
  ("repository", PyVal.dict [
    ("name", PyVal.str "proj"),
    ("owner", PyVal.dict [("name", PyVal.str "org")])]),
  ("compare", PyVal.str "https://github.com/org/proj/compare/x...y")]

/-- `simplify_payload ghPayload`. -/
def ghSimplified : PyVal := PyVal.dict [
  ("branch", PyVal.str "main"),
  ("tag", PyVal.none),
  ("pusher", PyVal.str "alice"),
  ("files", PyVal.dict [
    ("all", PyVal.list [PyVal.str "a.py"]),
    ("added", PyVal.list []),
    ("removed", PyVal.list []),
    ("modified", PyVal.list [PyVal.str "a.py"])]),
  ("original", ghPayload)]

/-- The push-summary line the hook emits on `ghPayload` under the default
config, with the compare url shortened to `http://git.io/abc`. -/
def c7line1 : String :=
  "\x03[\x0302proj\x03] \x0307alice\x03 pushed \x03031\x03 commit to \x0303main\x03 [+0/-0/±1] \x0313http://git.io/abc\x03"

/-- The commit line the hook emits on `ghPayload` under the default config:
the commit object carries no `author` or `username`, so no attribution
segment is emitted. -/
def c7line2 : String :=
  "\x03[\x0302proj\x03] \x0303abcdef0\x03 - fix bug"

/-- A payload carrying both a branch-shaped `ref` and a tag-shaped
`base_ref`: the first match must win. -/
def c8payload : PyVal := PyVal.dict [
  ("ref", PyVal.str "refs/heads/x"),
  ("base_ref", PyVal.str "refs/tags/y")]

/-- `simplify_payload c8payload`. -/
def c8result : PyVal := PyVal.dict [
  ("branch", PyVal.str "x"),
  ("tag", PyVal.none),
  ("pusher", PyVal.none),
  ("files", PyVal.dict [
    ("all", PyVal.list []),
    ("added", PyVal.list []),
    ("removed", PyVal.list []),
    ("modified", PyVal.list [])]),
  ("original", c8payload)]

/-- A commit whose message spans two lines. -/
def c10commit : PyVal := PyVal.dict [
  ("id", PyVal.str "abc"),
  ("message", PyVal.str "fix\nbug")]

/-- A minimal raw payload for rendering a single commit line. -/
def c10original : PyVal :=
  PyVal.dict [("repository", PyVal.dict [("name", PyVal.str "p")])]

/-- The line `commitLine` produces on `c10original`/`c10commit`. -/
def c10line : String := "\x03[\x0302p\x03] \x0303abc\x03 - fix\nbug"

/-- A config whose branch filter does not contain `main`. -/
def c5cfgA : HookConfig := { branches := some "dev" }

/-- A config whose branch filter contains `main` (after strip/lower). -/
def c5cfgB : HookConfig := { branches := some "MAIN , dev" }

/-! ### Shared lemmas -/

theorem ebind_ok {α β : Type} (a : α) (f : α → Except PyErr β) :
    ebind (Except.ok a) f = f a := rfl

theorem ebind_error {α β : Type} (e : PyErr) (f : α → Except PyErr β) :
    ebind (Except.error e) f = Except.error e := rfl

theorem dget_pyIndex {v : PyVal} {k : String} {x : PyVal}
    (h : dget v k = some x) : pyIndex v k = Except.ok x := by
  cases v <;> simp [dget] at h
  simp [pyIndex, h]

/-- Inversion of a successful `ebind`. -/
theorem ebind_ok_inv {α β : Type} {e : Except PyErr α}
    {f : α → Except PyErr β} {b : β} (h : ebind e f = Except.ok b) :
    ∃ a, e = Except.ok a ∧ f a = Except.ok b := by
  cases e with
  | error err => exact Except.noConfusion h
  | ok a => exact ⟨a, rfl, h⟩

/-- Inversion of a successful `simplify_payload` run: the intermediate
values of every step, and the shape of the result dict. -/
theorem simplify_shape {p j : PyVal}
    (h : simplify_payload p = Except.ok j) :
    ∃ (ref1 ref2 : PyVal) (refres : Option (String × String)) (hasP : Bool)
      (pusherv commitsv : PyVal) (cs : List PyVal) (files : Files),
      pyGetD p "ref" (PyVal.str "") = Except.ok ref1 ∧
      pyGetD p "base_ref" (PyVal.str "") = Except.ok ref2 ∧
      refLoop [ref1, ref2] = Except.ok refres ∧
      pyContains p "pusher" = Except.ok hasP ∧
      (if hasP then
        ebind (pyIndex p "pusher") (fun pv => pyGetN pv "name")
       else Except.ok PyVal.none) = Except.ok pusherv ∧
      pyGetD p "commits" (PyVal.list []) = Except.ok commitsv ∧
      pyIter commitsv = Except.ok cs ∧
      foldCommits cs ⟨[], [], [], []⟩ = Except.ok files ∧
      j = PyVal.dict [
        ("branch", (refToBranchTag refres).1),
        ("tag", (refToBranchTag refres).2),
        ("pusher", pusherv),
        ("files", PyVal.dict [
          ("all", PyVal.list files.all),
          ("added", PyVal.list files.added),
          ("removed", PyVal.list files.removed),
          ("modified", PyVal.list files.modified)]),
        ("original", p)] := by
  unfold simplify_payload at h
  obtain ⟨r1, h1, h⟩ := ebind_ok_inv h
  obtain ⟨r2, h2, h⟩ := ebind_ok_inv h
  obtain ⟨rr, h3, h⟩ := ebind_ok_inv h
  obtain ⟨hp, h4, h⟩ := ebind_ok_inv h
  obtain ⟨pv, h5, h⟩ := ebind_ok_inv h
  obtain ⟨cv, h6, h⟩ := ebind_ok_inv h
  obtain ⟨cs, h7, h⟩ := ebind_ok_inv h
  obtain ⟨fl, h8, h⟩ := ebind_ok_inv h
  injection h with h
  subst h
  exact ⟨r1, r2, rr, hp, pv, cv, cs, fl, h1, h2, h3, h4, h5, h6, h7, h8, rfl⟩

/-- Whenever `simplify_payload` returns, the `original` entry of its result
is the untouched payload. -/
theorem simplify_original {p j : PyVal}
    (h : simplify_payload p = Except.ok j) :
    pyIndex j "original" = Except.ok p := by
  obtain ⟨_, _, _, _, _, _, _, _, -, -, -, -, -, -, -, -, hj⟩ :=
    simplify_shape h
  subst hj
  rfl

theorem mapLines_length {f : PyVal → Except PyErr String} :
    ∀ {cs : List PyVal} {ls : List String},
    mapLines f cs = Except.ok ls → ls.length = cs.length := by
  intro cs
  induction cs with
  | nil => intro ls h; injection h with h; subst h; rfl
  | cons c cs ih =>
    intro ls h
    unfold mapLines at h
    cases hc : f c with
    | error e => rw [hc, ebind_error] at h; exact Except.noConfusion h
    | ok l =>
      rw [hc, ebind_ok] at h
      cases hrest : mapLines f cs with
      | error e => rw [hrest, ebind_error] at h; exact Except.noConfusion h
      | ok ls2 =>
        rw [hrest, ebind_ok] at h
        injection h with h; subst h
        simp [ih hrest]

/-! ### Claim theorems -/

/-- Claim C1 (code bug): on an event with an empty commit list, an absent
tag and `show_tags` left at its default `true`, `handle_request` does not
produce zero lines: because `simplify_payload` always inserts the `tag` key,
the guard `'tag' not in j` at `github.py:122` can never fire, and the hook
emits one tag-summary line rendering the absent tag as the text `None`,
contradicting the source comment `No commits, no tags, nothing to do` and
the spec. -/
theorem c1_tag_guard_never_fires :
    handle_request netTimeout (parseTo c1payload) (some "payload") {} =
      Except.ok [c1line] ∧
    strContains c1line "None" = true := by
  constructor
  · rfl
  · decide

/-- Claim C2 (counterexample): `simplify_payload` raises `KeyError` on a
payload whose commit objects lack the `added` key — it is not total on
malformed input. -/
theorem c2_counterexample :
    simplify_payload c2badPayload = Except.error (PyErr.keyError "added") :=
  rfl

/-- Claim C3 (counterexample): a `payload` form field that is present and
non-empty but not parseable as JSON does not yield an empty sequence — the
`json.loads` call at `github.py:109` raises `ValueError` unhandled. -/
theorem c3_counterexample :
    handle_request netTimeout parseFail (some "not json") {} =
      Except.error PyErr.valueError :=
  rfl

/-- Claim C3 (amended): an absent or empty `payload` form field yields the
empty sequence without error, but a non-empty field that fails JSON parsing
raises `ValueError` instead of yielding an empty sequence. -/
theorem c3_amended (net : String → NetOutcome) (parse : String → Option PyVal)
    (config : HookConfig) :
    handle_request net parse Option.none config = Except.ok [] ∧
    handle_request net parse (some "") config = Except.ok [] ∧
    (∀ s : String, s ≠ "" → parse s = Option.none →
      handle_request net parse (some s) config =
        Except.error PyErr.valueError) := by
  refine ⟨rfl, by simp [handle_request], ?_⟩
  intro s hs hp
  simp [handle_request, hs, hp]

/-- Witness for `c3_amended` at a concrete unparseable body. -/
theorem c3_witness :
    handle_request netTimeout parseFail (some "x") ({} : HookConfig) =
      Except.error PyErr.valueError :=
  (c3_amended netTimeout parseFail {}).2.2 "x" (by decide) rfl

/-- Claim C4 (counterexample): a transport error other than a timeout — for
example a connection failure — is not caught by `shorten` (`github.py:324-329`
catches only `requests.exceptions.Timeout`) and propagates to the caller
instead of returning the original url. -/
theorem c4_counterexample :
    shorten (fun _ => NetOutcome.transportError)
        "https://github.com/org/proj/compare/a...b" =
      Except.error PyErr.connectionError :=
  rfl

/-- Claim C4 (amended): for a url not already on the shortening domain,
`shorten` returns the url unchanged on a timeout and on any response status
other than 201, and returns the `Location` header on a 201 response; but a
non-timeout transport error propagates out of `shorten`. -/
theorem c4_shorten_amended (net : String → NetOutcome) (url : String)
    (h : isGitIoUrl url = false) :
    (net url = NetOutcome.timeout → shorten net url = Except.ok url) ∧
    (∀ (status : Nat) (loc : Option String),
      net url = NetOutcome.response status loc → status ≠ 201 →
      shorten net url = Except.ok url) ∧
    (∀ loc : String, net url = NetOutcome.response 201 (some loc) →
      shorten net url = Except.ok loc) ∧
    (net url = NetOutcome.transportError →
      shorten net url = Except.error PyErr.connectionError) := by
  refine ⟨?_, ?_, ?_, ?_⟩
  · intro hn; simp [shorten, h, hn]
  · intro status loc hn hst; simp [shorten, h, hn, hst]
  · intro loc hn; simp [shorten, h, hn]
  · intro hn; simp [shorten, h, hn]

/-- Witness for `c4_shorten_amended`: a timeout and a throttling 403 both
fall back to the original url, and a 201 returns the `Location` value. -/
theorem c4_witness :
    shorten netTimeout "https://github.com/a" =
      Except.ok "https://github.com/a" ∧
    shorten (fun _ => NetOutcome.response 403 Option.none)
        "https://github.com/a" = Except.ok "https://github.com/a" ∧
    shorten (netCreated "http://git.io/q") "https://github.com/a" =
      Except.ok "http://git.io/q" :=
  ⟨(c4_shorten_amended netTimeout "https://github.com/a" (by decide)).1 rfl,
   (c4_shorten_amended _ "https://github.com/a" (by decide)).2.1 403
     Option.none rfl (by decide),
   (c4_shorten_amended _ "https://github.com/a" (by decide)).2.2.1
     "http://git.io/q" rfl⟩

/-- Claim C9: a url already matching the service's own domain pattern is
returned unchanged without any network call, and therefore re-shortening a
result that targets the service's domain is the identity. -/
theorem c9_shorten_idempotent (net : String → NetOutcome) (url v : String) :
    (isGitIoUrl url = true → shorten net url = Except.ok url) ∧
    (shorten net url = Except.ok v → isGitIoUrl v = true →
      shorten net v = Except.ok v) := by
  constructor
  · intro h; simp [shorten, h]
  · intro _ hv; simp [shorten, hv]

/-- Witness for `c9_shorten_idempotent`: a `git.io` url is a fixed point,
and the shortened form of a GitHub url is a fixed point of a second call. -/
theorem c9_witness :
    shorten netTimeout "http://git.io/abc" = Except.ok "http://git.io/abc" ∧
    shorten (netCreated "http://git.io/q") "http://git.io/q" =
      Except.ok "http://git.io/q" :=
  ⟨(c9_shorten_idempotent netTimeout "http://git.io/abc"
      "http://git.io/abc").1 (by decide),
   (c9_shorten_idempotent (netCreated "http://git.io/q")
      "https://github.com/a" "http://git.io/q").2 rfl (by decide)⟩

/-- Claim C7 (counterexample): under the default config — `use_colors` true,
so nothing is stripped — the two lines carry mIRC color codes: the push
summary does not contain the contiguous substrings `1 commit` or `to main`,
and the commit line differs from the claimed text; moreover even after
stripping the codes the commit line lacks `alice`, because the scenario
commit object has no `author` or `committer` field and the attribution
segment is omitted entirely. -/
theorem c7_counterexample :
    handle_request (netCreated "http://git.io/abc") (parseTo ghPayload)
        (some "payload") {} = Except.ok [c7line1, c7line2] ∧
    strContains c7line1 "1 commit" = false ∧
    strContains c7line1 "to main" = false ∧
    c7line2 ≠ "[proj] alice abcdef0 - fix bug" ∧
    stripColors c7line2 ≠ "[proj] alice abcdef0 - fix bug" := by
  refine ⟨rfl, by decide, by decide, by decide, by decide⟩

/-- Claim C7 (amended): on the scenario payload under the default config the
hook yields exactly two lines; after removing the mIRC color codes the
push-summary line contains `alice`, `1 commit`, `to main`, the `[+0` / `-0`
/ `±1]` delta marker and the shortened compare url, and the commit line is
`[proj] abcdef0 - fix bug` — with no attribution, since the commit object
carries no author or committer. -/
theorem c7_scenario_amended :
    handle_request (netCreated "http://git.io/abc") (parseTo ghPayload)
        (some "payload") {} = Except.ok [c7line1, c7line2] ∧
    strContains (stripColors c7line1) "alice" = true ∧
    strContains (stripColors c7line1) "1 commit" = true ∧
    strContains (stripColors c7line1) "to main" = true ∧
    strContains (stripColors c7line1) "[+0/-0/±1]" = true ∧
    strContains (stripColors c7line1) "http://git.io/abc" = true ∧
    stripColors c7line2 = "[proj] abcdef0 - fix bug" := by
  refine ⟨rfl, by decide, by decide, by decide, by decide, by decide,
    by decide⟩

theorem refToBranchTag_at_most_one (rr : Option (String × String)) :
    (refToBranchTag rr).1 = PyVal.none ∨ (refToBranchTag rr).2 = PyVal.none := by
  unfold refToBranchTag
  split
  · exact Or.inr rfl
  · exact Or.inl rfl
  · exact Or.inl rfl

theorem refLoop_first_match {s : String} {tn : String × String}
    (h : refMatch s = some tn) (rest : List PyVal) :
    refLoop (PyVal.str s :: rest) = Except.ok (some tn) := by
  unfold refLoop
  rw [show asStr (PyVal.str s) = Except.ok s from rfl, ebind_ok, h]

/-- Claim C8: a successful `simplify_payload` run populates at most one of
`branch` and `tag`: `ref` is examined before `base_ref`, the first value
matching the pattern wins and stops the loop, a `heads` match populates
`branch`, a `tags` match populates `tag`, and when the loop finds no match
both stay `None`. -/
theorem c8_ref_resolution (p j r1 r2 : PyVal)
    (hs : simplify_payload p = Except.ok j)
    (h1 : pyGetD p "ref" (PyVal.str "") = Except.ok r1)
    (h2 : pyGetD p "base_ref" (PyVal.str "") = Except.ok r2) :
    (dget j "branch" = some PyVal.none ∨ dget j "tag" = some PyVal.none) ∧
    (∀ nm : String, refLoop [r1, r2] = Except.ok (some ("heads", nm)) →
      dget j "branch" = some (PyVal.str nm) ∧
      dget j "tag" = some PyVal.none) ∧
    (∀ nm : String, refLoop [r1, r2] = Except.ok (some ("tags", nm)) →
      dget j "branch" = some PyVal.none ∧
      dget j "tag" = some (PyVal.str nm)) ∧
    (refLoop [r1, r2] = Except.ok Option.none →
      dget j "branch" = some PyVal.none ∧
      dget j "tag" = some PyVal.none) ∧
    (∀ (s : String) (tn : String × String) (v : PyVal),
      refMatch s = some tn →
      refLoop [PyVal.str s, v] = Except.ok (some tn)) := by
  obtain ⟨ref1, ref2, rr, _, _, _, _, _, g1, g2, g3, -, -, -, -, -, hj⟩ :=
    simplify_shape hs
  rw [h1] at g1
  injection g1 with g1
  rw [h2] at g2
  injection g2 with g2
  subst g1
  subst g2
  subst hj
  refine ⟨?_, ?_, ?_, ?_, ?_⟩
  · rcases refToBranchTag_at_most_one rr with h | h
    · exact Or.inl (by simp [dget, dlookup, h])
    · exact Or.inr (by simp [dget, dlookup, h])
  · intro nm hloop
    rw [g3] at hloop
    injection hloop with hloop
    subst hloop
    exact ⟨rfl, rfl⟩
  · intro nm hloop
    rw [g3] at hloop
    injection hloop with hloop
    subst hloop
    exact ⟨rfl, rfl⟩
  · intro hloop
    rw [g3] at hloop
    injection hloop with hloop
    subst hloop
    exact ⟨rfl, rfl⟩
  · intro s tn v hm
    exact refLoop_first_match hm [v]

/-- Witness for `c8_ref_resolution`: on a payload whose `ref` is a branch
ref and whose `base_ref` is a tag ref, `branch` is set from `ref` and `tag`
stays `None`. -/
theorem c8_witness :
    dget c8result "branch" = some (PyVal.str "x") ∧
    dget c8result "tag" = some PyVal.none :=
  (c8_ref_resolution c8payload c8result
      (PyVal.str "refs/heads/x") (PyVal.str "refs/tags/y")
      rfl rfl rfl).2.1 "x" rfl

/-- Unfolding of `handle_request` on a push with a truthy commit list: the
run reaches the branch-filter decision and then the push path. -/
theorem handle_request_push (net : String → NetOutcome)
    (parse : String → Option PyVal) (pf : String) (payload j commitsv : PyVal)
    (config : HookConfig)
    (hpf : pf ≠ "") (hp : parse pf = some payload)
    (hs : simplify_payload payload = Except.ok j)
    (hc : dget payload "commits" = some commitsv)
    (ht : pyTruthy commitsv = true) :
    handle_request net parse (some pf) config =
      ebind (branchSuppressed j config) (fun suppressed =>
        if suppressed then Except.ok []
        else
          ebind (create_push_summary net j config) (fun pushLine =>
          ebind (create_commit_summary j config) (fun commitLines =>
            Except.ok (message pushLine (!config.use_colors) ::
              commitLines.map (fun l => message l (!config.use_colors)))))) := by
  simp only [handle_request]
  rw [if_neg hpf]
  simp only [hp]
  rw [hs, ebind_ok, simplify_original hs, ebind_ok, dget_pyIndex hc,
    ebind_ok, ht]
  rfl

/-- Claim C5: with a non-empty commit list and a truthy branch filter
configured, a push whose branch is present and — after lowercasing — not in
the strip-and-lower comparison list yields zero lines, while a push whose
branch is absent or in the list is handled exactly as if no filter were
configured. -/
theorem c5_branch_filter (net : String → NetOutcome)
    (parse : String → Option PyVal) (pf : String) (payload j : PyVal)
    (cs : List PyVal) (config : HookConfig) (bs : String)
    (hpf : pf ≠ "") (hp : parse pf = some payload)
    (hs : simplify_payload payload = Except.ok j)
    (hc : dget payload "commits" = some (PyVal.list cs))
    (hcn : cs ≠ [])
    (hb : config.branches = some bs)
    (hbs : bs ≠ "") :
    (∀ b : String, dget j "branch" = some (PyVal.str b) → b ≠ "" →
      strLower b ∉ filterList bs →
      handle_request net parse (some pf) config = Except.ok []) ∧
    ((dget j "branch" = some PyVal.none ∨
      (∃ b : String, dget j "branch" = some (PyVal.str b) ∧
        strLower b ∈ filterList bs)) →
      handle_request net parse (some pf) config =
        handle_request net parse (some pf)
          { config with branches := Option.none }) := by
  have ht : pyTruthy (PyVal.list cs) = true := by
    cases cs with
    | nil => exact absurd rfl hcn
    | cons a l => rfl
  have hbsb : (bs != "") = true := by simp [hbs]
  constructor
  · intro b hbr hbne hnin
    rw [handle_request_push net parse pf payload j (PyVal.list cs) config
      hpf hp hs hc ht]
    have hsup : branchSuppressed j config = Except.ok true := by
      unfold branchSuppressed
      simp only [hb]
      rw [if_pos hbsb, dget_pyIndex hbr, ebind_ok]
      have htb : pyTruthy (PyVal.str b) = true := by simp [pyTruthy, hbne]
      rw [if_pos htb,
        show pyLower (PyVal.str b) = Except.ok (strLower b) from rfl,
        ebind_ok, decide_eq_true hnin]
    rw [hsup]
    rfl
  · intro hbr
    have hsup : branchSuppressed j config = Except.ok false := by
      unfold branchSuppressed
      simp only [hb]
      rw [if_pos hbsb]
      rcases hbr with hnone | ⟨b, hbb, hin⟩
      · rw [dget_pyIndex hnone, ebind_ok]
        rfl
      · rw [dget_pyIndex hbb, ebind_ok]
        by_cases hbe : b = ""
        · subst hbe
          rfl
        · have htb : pyTruthy (PyVal.str b) = true := by simp [pyTruthy, hbe]
          rw [if_pos htb,
            show pyLower (PyVal.str b) = Except.ok (strLower b) from rfl,
            ebind_ok]
          simp [hin]
    rw [handle_request_push net parse pf payload j (PyVal.list cs) config
      hpf hp hs hc ht,
      handle_request_push net parse pf payload j (PyVal.list cs)
        { config with branches := Option.none } hpf hp hs hc ht,
      hsup,
      show branchSuppressed j { config with branches := Option.none } =
        Except.ok false from rfl]
    rfl

/-- Witness for `c5_branch_filter`: the scenario push on `main` is
suppressed by the filter `dev` and passes the filter `MAIN , dev`
unchanged. -/
theorem c5_witness :
    handle_request (netCreated "http://git.io/abc") (parseTo ghPayload)
        (some "payload") c5cfgA = Except.ok [] ∧
    handle_request (netCreated "http://git.io/abc") (parseTo ghPayload)
        (some "payload") c5cfgB =
      handle_request (netCreated "http://git.io/abc") (parseTo ghPayload)
        (some "payload") { c5cfgB with branches := Option.none } :=
  ⟨(c5_branch_filter (netCreated "http://git.io/abc") (parseTo ghPayload)
      "payload" ghPayload ghSimplified [ghCommit] c5cfgA "dev"
      (by decide) rfl rfl rfl (List.cons_ne_nil _ _) rfl (by decide)).1
      "main" rfl (by decide) (by decide),
   (c5_branch_filter (netCreated "http://git.io/abc") (parseTo ghPayload)
      "payload" ghPayload ghSimplified [ghCommit] c5cfgB "MAIN , dev"
      (by decide) rfl rfl rfl (List.cons_ne_nil _ _) rfl (by decide)).2
      (Or.inr ⟨"main", rfl, by decide⟩)⟩

/-- Claim C6: a successful run on a payload with a non-empty commit list
whose push the branch filter does not suppress yields exactly one more line
than there are commits: the push summary followed by one line per commit. -/
theorem c6_line_count (net : String → NetOutcome)
    (parse : String → Option PyVal) (pf : String) (payload j : PyVal)
    (cs : List PyVal) (config : HookConfig) (lines : List String)
    (hpf : pf ≠ "") (hp : parse pf = some payload)
    (hs : simplify_payload payload = Except.ok j)
    (hc : dget payload "commits" = some (PyVal.list cs))
    (hcn : cs ≠ [])
    (hflt : branchSuppressed j config = Except.ok false)
    (hr : handle_request net parse (some pf) config = Except.ok lines) :
    ∃ (pushLine : String) (commitLines : List String),
      create_push_summary net j config = Except.ok pushLine ∧
      create_commit_summary j config = Except.ok commitLines ∧
      commitLines.length = cs.length ∧
      lines = message pushLine (!config.use_colors) ::
        commitLines.map (fun l => message l (!config.use_colors)) ∧
      lines.length = cs.length + 1 := by
  have ht : pyTruthy (PyVal.list cs) = true := by
    cases cs with
    | nil => exact absurd rfl hcn
    | cons a l => rfl
  rw [handle_request_push net parse pf payload j (PyVal.list cs) config
    hpf hp hs hc ht, hflt, ebind_ok, if_neg Bool.false_ne_true] at hr
  obtain ⟨pushLine, hpush, hr⟩ := ebind_ok_inv hr
  obtain ⟨commitLines, hcl, hr⟩ := ebind_ok_inv hr
  injection hr with hr
  subst hr
  have hlen : commitLines.length = cs.length := by
    unfold create_commit_summary at hcl
    rw [simplify_original hs, ebind_ok, dget_pyIndex hc, ebind_ok,
      show pyIter (PyVal.list cs) = Except.ok cs from rfl, ebind_ok] at hcl
    exact mapLines_length hcl
  exact ⟨pushLine, commitLines, hpush, hcl, hlen, rfl,
    by simp [hlen]⟩

/-- Witness for `c6_line_count`: the scenario run yields two lines for its
one commit. -/
theorem c6_witness :
    ([c7line1, c7line2] : List String).length =
      ([ghCommit] : List PyVal).length + 1 := by
  obtain ⟨_, _, _, _, _, _, hlen⟩ :=
    c6_line_count (netCreated "http://git.io/abc") (parseTo ghPayload)
      "payload" ghPayload ghSimplified [ghCommit] {} [c7line1, c7line2]
      (by decide) rfl rfl rfl (List.cons_ne_nil _ _) rfl rfl
  exact hlen

theorem strEndsWith_concat (p s : String) : strEndsWith (p ++ s) s = true := by
  simp [strEndsWith, String.data_append, List.isSuffixOf_iff_suffix]

theorem strEndsWith_append_left (p : String) {t suf : String}
    (h : strEndsWith t suf = true) : strEndsWith (p ++ t) suf = true := by
  simp only [strEndsWith, List.isSuffixOf_iff_suffix] at h
  simp only [strEndsWith, String.data_append, List.isSuffixOf_iff_suffix]
  exact h.trans (List.suffix_append _ _)

/-- A space-joined list ending in the literal `-` segment and a final
element ends, as a string, with a space, the dash, a space, and that
element. -/
theorem pyJoin_tail (m : String) : ∀ (xs : List String) (x : String),
    strEndsWith (pyJoin " " (x :: xs ++ ["-", m])) (" - " ++ m) = true := by
  intro xs
  induction xs with
  | nil =>
    intro x
    show strEndsWith (x ++ " " ++ ("-" ++ " " ++ m)) (" - " ++ m) = true
    have hx : x ++ " " ++ ("-" ++ " " ++ m) = x ++ (" - " ++ m) := by
      apply String.ext
      simp [String.data_append]
    rw [hx]
    exact strEndsWith_concat x (" - " ++ m)
  | cons y ys ih =>
    intro x
    show strEndsWith (x ++ " " ++ pyJoin " " (y :: ys ++ ["-", m]))
      (" - " ++ m) = true
    exact strEndsWith_append_left (x ++ " ") (ih y)

/-- Claim C10: the line `commitLine` yields for a commit ends with the
commit's message copied verbatim after the literal dash token — embedded
newlines and all. -/
theorem c10_commit_message_verbatim (original : PyVal) (config : HookConfig)
    (commit : PyVal) (msg l : String)
    (hm : pyIndex commit "message" = Except.ok (PyVal.str msg))
    (hl : commitLine original config commit = Except.ok l) :
    strEndsWith l (" - " ++ msg) = true := by
  unfold commitLine at hl
  obtain ⟨committer, h1, hl⟩ := ebind_ok_inv hl
  obtain ⟨author, h2, hl⟩ := ebind_ok_inv hl
  obtain ⟨pname, h3, hl⟩ := ebind_ok_inv hl
  obtain ⟨a1, h4, hl⟩ := ebind_ok_inv hl
  obtain ⟨a2, h5, hl⟩ := ebind_ok_inv hl
  obtain ⟨idv, h6, hl⟩ := ebind_ok_inv hl
  obtain ⟨sha, h7, hl⟩ := ebind_ok_inv hl
  obtain ⟨msgv, h8, hl⟩ := ebind_ok_inv hl
  obtain ⟨msgS, h9, hl⟩ := ebind_ok_inv hl
  rw [hm] at h8
  injection h8 with h8
  subst h8
  injection h9 with h9
  subst h9
  injection hl with hl
  subst hl
  split
  · exact pyJoin_tail msg
      [ORANGE ++ pyStr a2 ++ RESET, GREEN ++ pyStr sha ++ RESET]
      (RESET ++ "[" ++ BLUE ++ pname ++ RESET ++ "]")
  · exact pyJoin_tail msg [GREEN ++ pyStr sha ++ RESET]
      (RESET ++ "[" ++ BLUE ++ pname ++ RESET ++ "]")

/-- Witness for `c10_commit_message_verbatim`: a two-line commit message
survives verbatim at the end of the commit line. -/
theorem c10_witness :
    strEndsWith c10line (" - " ++ "fix\nbug") = true :=
  c10_commit_message_verbatim c10original {} c10commit "fix\nbug" c10line
    rfl rfl

theorem getD_str_of_wf (o : Option PyVal) (h : optStrOrAbsent o = true) :
    ∃ s, o.getD (PyVal.str "") = PyVal.str s := by
  cases o with
  | none => exact ⟨"", rfl⟩
  | some v =>
    cases v with
    | str s => exact ⟨s, rfl⟩
    | none => simp [optStrOrAbsent] at h
    | bool b => simp [optStrOrAbsent] at h
    | int n => simp [optStrOrAbsent] at h
    | list xs => simp [optStrOrAbsent] at h
    | dict es => simp [optStrOrAbsent] at h

theorem pyIter_total {v : PyVal} (h : isIterable v = true) :
    ∃ l, pyIter v = Except.ok l := by
  cases v with
  | list xs => exact ⟨xs, rfl⟩
  | str s => exact ⟨_, rfl⟩
  | dict es => exact ⟨_, rfl⟩
  | none => simp [isIterable] at h
  | bool b => simp [isIterable] at h
  | int n => simp [isIterable] at h

theorem refLoop_total (s1 s2 : String) :
    ∃ r, refLoop [PyVal.str s1, PyVal.str s2] = Except.ok r := by
  unfold refLoop
  rw [show asStr (PyVal.str s1) = Except.ok s1 from rfl, ebind_ok]
  cases hm : refMatch s1 with
  | some tn => exact ⟨some tn, rfl⟩
  | none =>
    unfold refLoop
    rw [show asStr (PyVal.str s2) = Except.ok s2 from rfl, ebind_ok]
    cases hm2 : refMatch s2 with
    | some tn => exact ⟨some tn, rfl⟩
    | none => exact ⟨Option.none, rfl⟩

theorem commitWF_spec {c : PyVal} (h : commitWF c = true) :
    ∃ a r m, dget c "added" = some a ∧ dget c "removed" = some r ∧
      dget c "modified" = some m ∧ isIterable a = true ∧
      isIterable r = true ∧ isIterable m = true := by
  unfold commitWF at h
  split at h
  · rename_i a r m ha hr hm
    simp only [Bool.and_eq_true] at h
    exact ⟨a, r, m, ha, hr, hm, h.1.1, h.1.2, h.2⟩
  · exact absurd h (by simp)

theorem foldCommits_total : ∀ (cs : List PyVal) (f : Files),
    cs.all commitWF = true → ∃ g, foldCommits cs f = Except.ok g := by
  intro cs
  induction cs with
  | nil => intro f _; exact ⟨f, rfl⟩
  | cons c cs ih =>
    intro f h
    simp only [List.all_cons, Bool.and_eq_true] at h
    obtain ⟨hc, hcs⟩ := h
    obtain ⟨a, r, m, ha, hr, hm, ia, ir, im⟩ := commitWF_spec hc
    obtain ⟨al, hal⟩ := pyIter_total ia
    obtain ⟨rl, hrl⟩ := pyIter_total ir
    obtain ⟨ml, hml⟩ := pyIter_total im
    unfold foldCommits
    rw [dget_pyIndex ha, ebind_ok, hal, ebind_ok,
      dget_pyIndex hr, ebind_ok, hrl, ebind_ok,
      dget_pyIndex hm, ebind_ok, hml, ebind_ok]
    exact ih _ hcs

/-- Claim C2 (amended): `simplify_payload` returns normally — and degrades
each missing field to an absent value — on every payload dict whose
`ref`/`base_ref` entries, when present, are strings, whose `pusher` entry,
when present, is a dict, and whose `commits` entry, when present, is a list
of commit dicts each carrying iterable `added`/`removed`/`modified` entries.
A missing `pusher` key yields `pusher = None`, missing `ref` and `base_ref`
keys yield `branch = tag = None`, and a missing `commits` key yields empty
file-movement lists.  (Outside this shape the function can raise, as the
counterexample shows.) -/
theorem c2_total_on_wellformed (p : PyVal) (h : simplifyWF p = true) :
    exceptIsOk (simplify_payload p) = true ∧
    (dget p "pusher" = Option.none → ∀ j, simplify_payload p = Except.ok j →
      dget j "pusher" = some PyVal.none) ∧
    (dget p "ref" = Option.none → dget p "base_ref" = Option.none →
      ∀ j, simplify_payload p = Except.ok j →
        dget j "branch" = some PyVal.none ∧
        dget j "tag" = some PyVal.none) ∧
    (dget p "commits" = Option.none →
      ∀ j, simplify_payload p = Except.ok j →
        dget j "files" = some (PyVal.dict [
          ("all", PyVal.list []), ("added", PyVal.list []),
          ("removed", PyVal.list []), ("modified", PyVal.list [])])) := by
  obtain ⟨es, rfl⟩ : ∃ es, p = PyVal.dict es := by
    cases p with
    | dict es => exact ⟨es, rfl⟩
    | none => simp [simplifyWF] at h
    | bool b => simp [simplifyWF] at h
    | int n => simp [simplifyWF] at h
    | str s => simp [simplifyWF] at h
    | list xs => simp [simplifyWF] at h
  unfold simplifyWF at h
  simp only [Bool.and_eq_true] at h
  obtain ⟨⟨⟨h1, h2⟩, h3⟩, h4⟩ := h
  obtain ⟨s1, hs1⟩ := getD_str_of_wf (dlookup es "ref") h1
  obtain ⟨s2, hs2⟩ := getD_str_of_wf (dlookup es "base_ref") h2
  obtain ⟨rr, hrr⟩ := refLoop_total s1 s2
  have hpush : ∃ pusherv,
      (if (dlookup es "pusher").isSome then
        ebind (pyIndex (PyVal.dict es) "pusher")
          (fun pv => pyGetN pv "name")
       else Except.ok PyVal.none) = Except.ok pusherv ∧
      (dlookup es "pusher" = Option.none → pusherv = PyVal.none) := by
    cases hpu : dlookup es "pusher" with
    | none => exact ⟨PyVal.none, rfl, fun _ => rfl⟩
    | some pv =>
      have h3a : optDictOrAbsent (some pv) = true := by
        rw [show dget (PyVal.dict es) "pusher" = dlookup es "pusher"
          from rfl, hpu] at h3
        exact h3
      cases pv with
      | dict pes =>
        refine ⟨(dlookup pes "name").getD PyVal.none, ?_, ?_⟩
        · show ebind (pyIndex (PyVal.dict es) "pusher")
            (fun pv => pyGetN pv "name") =
            Except.ok ((dlookup pes "name").getD PyVal.none)
          have hdg : dget (PyVal.dict es) "pusher" =
              some (PyVal.dict pes) := hpu
          rw [dget_pyIndex hdg, ebind_ok]
          rfl
        · intro hcontra
          exact Option.noConfusion hcontra
      | none => simp [optDictOrAbsent] at h3a
      | bool b => simp [optDictOrAbsent] at h3a
      | int n => simp [optDictOrAbsent] at h3a
      | str s => simp [optDictOrAbsent] at h3a
      | list xs => simp [optDictOrAbsent] at h3a
  obtain ⟨pusherv, hpv, hpvNone⟩ := hpush
  have hcom : ∃ (commitsv : PyVal) (cs : List PyVal) (files : Files),
      pyGetD (PyVal.dict es) "commits" (PyVal.list []) =
        Except.ok commitsv ∧
      pyIter commitsv = Except.ok cs ∧
      foldCommits cs ⟨[], [], [], []⟩ = Except.ok files ∧
      (dlookup es "commits" = Option.none → files = ⟨[], [], [], []⟩) := by
    cases hcm : dlookup es "commits" with
    | none =>
      refine ⟨PyVal.list [], [], ⟨[], [], [], []⟩, ?_, rfl, rfl, fun _ => rfl⟩
      simp [pyGetD, hcm]
    | some cv =>
      rw [show dget (PyVal.dict es) "commits" = dlookup es "commits" from rfl,
        hcm] at h4
      cases cv with
      | list cs =>
        obtain ⟨files, hfl⟩ := foldCommits_total cs ⟨[], [], [], []⟩ h4
        refine ⟨PyVal.list cs, cs, files, ?_, rfl, hfl, ?_⟩
        · simp [pyGetD, hcm]
        · intro hcontra
          exact Option.noConfusion hcontra
      | none => exact absurd h4 (by simp)
      | bool b => exact absurd h4 (by simp)
      | int n => exact absurd h4 (by simp)
      | str s => exact absurd h4 (by simp)
      | dict des => exact absurd h4 (by simp)
  obtain ⟨commitsv, cs, files, hcv, hit, hfl, hflNone⟩ := hcom
  have hrun : simplify_payload (PyVal.dict es) = Except.ok (PyVal.dict [
      ("branch", (refToBranchTag rr).1),
      ("tag", (refToBranchTag rr).2),
      ("pusher", pusherv),
      ("files", PyVal.dict [
        ("all", PyVal.list files.all),
        ("added", PyVal.list files.added),
        ("removed", PyVal.list files.removed),
        ("modified", PyVal.list files.modified)]),
      ("original", PyVal.dict es)]) := by
    unfold simplify_payload
    rw [show pyGetD (PyVal.dict es) "ref" (PyVal.str "") =
        Except.ok ((dlookup es "ref").getD (PyVal.str "")) from rfl,
      ebind_ok, hs1,
      show pyGetD (PyVal.dict es) "base_ref" (PyVal.str "") =
        Except.ok ((dlookup es "base_ref").getD (PyVal.str "")) from rfl,
      ebind_ok, hs2, hrr, ebind_ok,
      show pyContains (PyVal.dict es) "pusher" =
        Except.ok ((dlookup es "pusher").isSome) from rfl,
      ebind_ok, hpv, ebind_ok, hcv, ebind_ok, hit, ebind_ok, hfl, ebind_ok]
  refine ⟨by rw [hrun]; rfl, ?_, ?_, ?_⟩
  · intro hpu0 j hj
    rw [hrun] at hj
    injection hj with hj
    subst hj
    rw [hpvNone hpu0]
    rfl
  · intro hr0 hb0 j hj
    rw [show dget (PyVal.dict es) "ref" = dlookup es "ref" from rfl] at hr0
    rw [show dget (PyVal.dict es) "base_ref" = dlookup es "base_ref"
      from rfl] at hb0
    rw [hr0] at hs1
    rw [hb0] at hs2
    injection hs1 with hs1
    injection hs2 with hs2
    rw [← hs1, ← hs2] at hrr
    rw [show refLoop [PyVal.str "", PyVal.str ""] = Except.ok Option.none
      from rfl] at hrr
    injection hrr with hrr
    rw [hrun] at hj
    injection hj with hj
    subst hj
    rw [← hrr]
    exact ⟨rfl, rfl⟩
  · intro hc0 j hj
    rw [show dget (PyVal.dict es) "commits" = dlookup es "commits"
      from rfl] at hc0
    rw [hrun] at hj
    injection hj with hj
    subst hj
    rw [hflNone hc0]
    rfl

/-- Witness for `c2_total_on_wellformed`: the empty payload dict is
well-formed, the run returns, and every optional field degrades to its
absent value. -/
theorem c2_witness :
    exceptIsOk (simplify_payload (PyVal.dict [])) = true ∧
    dget c2emptyResult "pusher" = some PyVal.none ∧
    dget c2emptyResult "branch" = some PyVal.none ∧
    dget c2emptyResult "tag" = some PyVal.none ∧
    dget c2emptyResult "files" = some (PyVal.dict [
      ("all", PyVal.list []), ("added", PyVal.list []),
      ("removed", PyVal.list []), ("modified", PyVal.list [])]) :=
  have h := c2_total_on_wellformed (PyVal.dict []) rfl
  ⟨h.1, h.2.1 rfl c2emptyResult rfl,
    (h.2.2.1 rfl rfl c2emptyResult rfl).1,
    (h.2.2.1 rfl rfl c2emptyResult rfl).2,
    h.2.2.2 rfl c2emptyResult rfl⟩

end NotificoGithub
